import Mathlib

/-!
Shallow embedding of `server.js` from alvaro-portfolio-backend: an Express
contact endpoint that validates a form submission and relays it as an email
through an SMTP transport.  JavaScript strings are modelled as `List Char`,
possibly-absent values (`undefined`) as `Option`, and the handler as a pure
function from the environment and the parsed request body to the action it
performs (reject with a status, or send a mail through a transport).
-/

set_option maxRecDepth 4000

/-- JavaScript strings are modelled as lists of characters. -/
abbrev Str := List Char

/-- Coerce a Lean string literal into the model. -/
def str (s : String) : Str := s.toList

/-- The single-quote character (used by `escapeHtml`). -/
def squote : Char := Char.ofNat 39

/-- The double-quote character (used by `escapeHtml`). -/
def dquote : Char := Char.ofNat 34

/-- JavaScript truthiness of a possibly-`undefined` string: `undefined` and
the empty string are falsy, every other string is truthy. -/
def truthy : Option Str → Bool
  | none => false
  | some s => !s.isEmpty

/-- `x || "-"` on a possibly-absent string, as used for `telefono` and
`asunto` in the message bodies. -/
def orDash (o : Option Str) : Str :=
  if truthy o then o.getD [] else str "-"

/-- The JavaScript whitespace set recognised by `String.prototype.trim` and
by `\s` in regular expressions (WhiteSpace plus LineTerminator characters). -/
def jsWhitespace : List Char :=
  [' ', Char.ofNat 9, Char.ofNat 10, Char.ofNat 11, Char.ofNat 12, Char.ofNat 13,
   Char.ofNat 0xa0, Char.ofNat 0x1680, Char.ofNat 0x2000, Char.ofNat 0x2001,
   Char.ofNat 0x2002, Char.ofNat 0x2003, Char.ofNat 0x2004, Char.ofNat 0x2005,
   Char.ofNat 0x2006, Char.ofNat 0x2007, Char.ofNat 0x2008, Char.ofNat 0x2009,
   Char.ofNat 0x200a, Char.ofNat 0x2028, Char.ofNat 0x2029, Char.ofNat 0x202f,
   Char.ofNat 0x205f, Char.ofNat 0x3000, Char.ofNat 0xfeff]

/-- Whether a character is JavaScript whitespace. -/
def isSpaceJs (c : Char) : Bool := jsWhitespace.contains c

/-- `String.prototype.trim`: strip JavaScript whitespace from both ends. -/
def jsTrim (s : Str) : Str :=
  ((s.dropWhile isSpaceJs).reverse.dropWhile isSpaceJs).reverse

/-- A character of the class `[^\s@]` from the email regular expression:
neither whitespace nor `@`. -/
def emailChar (c : Char) : Bool := !isSpaceJs c && !(c = '@')

/-- The anchored pattern `^[^\s@]+@[^\s@]+\.[^\s@]+$` from `isEmail`:
one or more non-whitespace non-`@` characters, an `@`, then a domain of such
characters containing a dot that is neither its first nor its last
character.  (Since `@` is excluded from both classes, a matching string has
exactly one `@`.) -/
def emailShape (t : Str) : Bool :=
  let lp := t.takeWhile (fun c => !(c = '@'))
  match t.dropWhile (fun c => !(c = '@')) with
  | '@' :: dom =>
      !lp.isEmpty && lp.all emailChar && dom.all emailChar &&
        ((dom.drop 1).dropLast.contains '.')
  | _ => false

/-- `isEmail` from `server.js`: test the regular expression against the
trimmed input. -/
def isEmail (s : Str) : Bool := emailShape (jsTrim s)

/-- `String.prototype.replaceAll` with a single-character pattern: every
occurrence of `c` is replaced by `r`. -/
def replaceChar (c : Char) (r : Str) : Str → Str
  | [] => []
  | x :: xs => if x = c then r ++ replaceChar c r xs else x :: replaceChar c r xs

/-- `escapeHtml` from `server.js`: chained `replaceAll` calls escaping
ampersand, angle brackets, double quote and single quote, in that order. -/
def escapeHtml (s : Str) : Str :=
  replaceChar squote (str "&#039;")
    (replaceChar dquote (str "&quot;")
      (replaceChar '>' (str "&gt;")
        (replaceChar '<' (str "&lt;")
          (replaceChar '&' (str "&amp;") s))))

/-- The five entity tails that may follow an `&` produced by `escapeHtml`. -/
def entityTails : List Str :=
  [str "amp;", str "lt;", str "gt;", str "quot;", str "#039;"]

/-- A string has no unescaped HTML-special character: it contains no `<`,
`>`, double quote or single quote, and every `&` starts one of the five
entities emitted by `escapeHtml`. -/
def noUnescaped : Str → Bool
  | [] => true
  | x :: xs =>
      if x = '<' ∨ x = '>' ∨ x = dquote ∨ x = squote then false
      else if x = '&' then
        entityTails.any (fun e => e.isPrefixOf xs) && noUnescaped xs
      else noUnescaped xs

/-- The process environment: each variable is either unset or a string. -/
structure Env where
  SMTP_HOST : Option Str
  SMTP_PORT : Option Str
  SMTP_USER : Option Str
  SMTP_PASS : Option Str
  CONTACT_TO : Option Str
  SMTP_SECURE : Option Str
  CORS_ORIGIN : Option Str
  DEBUG_URL : Option Str
deriving DecidableEq, Repr

/-- The parsed JSON body of a `POST /api/contact` request; absent fields are
`none`. -/
structure Submission where
  nombre : Option Str
  email : Option Str
  telefono : Option Str
  mensaje : Option Str
  asunto : Option Str
deriving DecidableEq, Repr

/-- A JavaScript number restricted to what `Number()` produces on the inputs
this server feeds it: an integer or `NaN`. -/
inductive JsNum where
  | num (n : Int)
  | nan
deriving DecidableEq, Repr

/-- JavaScript strict equality `===` on numbers: `NaN` equals nothing. -/
def jsEq : JsNum → JsNum → Bool
  | .num a, .num b => a == b
  | _, _ => false

/-- Digit-string parsing used by the model of `Number()`. -/
def parseDigits (l : Str) : Option Nat :=
  if l.isEmpty then none
  else if l.all Char.isDigit then
    some (l.foldl (fun a c => a * 10 + (c.toNat - 48)) 0)
  else none

/-- Model of the JavaScript `Number()` conversion on the string forms this
server exercises: surrounding whitespace is ignored, the empty string is 0,
an optional sign followed by decimal digits is that integer, and anything
else is `NaN` (other numeric literal grammars are never produced here). -/
def jsNumber (s : Str) : JsNum :=
  let t := jsTrim s
  match t with
  | [] => .num 0
  | '-' :: ds => match parseDigits ds with
    | some n => .num (-(n : Int))
    | none => .nan
  | '+' :: ds => match parseDigits ds with
    | some n => .num (n : Int)
    | none => .nan
  | ds => match parseDigits ds with
    | some n => .num (n : Int)
    | none => .nan

/-- `Number(process.env.SMTP_PORT || 465)`: an unset or empty `SMTP_PORT`
falls back to 465, otherwise the string is converted. -/
def smtpPort (env : Env) : JsNum :=
  match env.SMTP_PORT with
  | none => .num 465
  | some s => if s.isEmpty then .num 465 else jsNumber s

/-- The transport-security flag: when `SMTP_SECURE` is defined its string
value is compared with `"true"`; otherwise the flag is whether the resolved
port strictly equals 465. -/
def smtpSecure (env : Env) : Bool :=
  match env.SMTP_SECURE with
  | some s => s == str "true"
  | none => jsEq (smtpPort env) (.num 465)

/-- The argument of `nodemailer.createTransport`. -/
structure Transport where
  host : Option Str
  port : JsNum
  secure : Bool
  authUser : Option Str
  authPass : Option Str
  tlsMinVersion : Str
deriving DecidableEq, Repr

/-- The transport the handler builds from the environment. -/
def mkTransport (env : Env) : Transport :=
  { host := env.SMTP_HOST
    port := smtpPort env
    secure := smtpSecure env
    authUser := env.SMTP_USER
    authPass := env.SMTP_PASS
    tlsMinVersion := str "TLSv1.2" }

/-- `${x}` interpolation of a possibly-`undefined` string. -/
def tmpl (o : Option Str) : Str := o.getD (str "undefined")

/-- The subject line: `asunto ? `(${asunto}) Nuevo mensaje de ${nombre}` :
`Nuevo mensaje de ${nombre}``. -/
def subjectLine (nombre : Str) (asunto : Option Str) : Str :=
  if truthy asunto then
    str "(" ++ asunto.getD [] ++ str ") Nuevo mensaje de " ++ nombre
  else
    str "Nuevo mensaje de " ++ nombre

/-- The plain-text body. -/
def textBody (nombre email telefono asunto mensaje : Str) : Str :=
  str "Nombre: " ++ nombre ++ str "\nEmail: " ++ email ++
  str "\nTeléfono: " ++ telefono ++ str "\nAsunto: " ++ asunto ++
  str "\nMensaje:\n" ++ mensaje

/-- Static HTML template segment before the name. -/
def htmlP1 : Str :=
  str "\n      <h2>Nuevo contacto desde tu portfolio 🚀</h2>\n      <p><b>Nombre:</b> "

/-- Static HTML template segment between name and email. -/
def htmlP2 : Str := str "</p>\n      <p><b>Email:</b> "

/-- Static HTML template segment between email and phone. -/
def htmlP3 : Str := str "</p>\n      <p><b>Teléfono:</b> "

/-- Static HTML template segment between phone and subject. -/
def htmlP4 : Str := str "</p>\n      <p><b>Asunto:</b> "

/-- Static HTML template segment between subject and message. -/
def htmlP5 : Str :=
  str "</p>\n      <p><b>Mensaje:</b></p>\n      <pre style=\"white-space:pre-wrap;font-family:inherit\">"

/-- Static HTML template segment after the message. -/
def htmlP6 : Str := str "</pre>\n    "

/-- The HTML body: the template with every user-supplied value passed
through `escapeHtml`. -/
def htmlBody (nombre email telefono asunto mensaje : Str) : Str :=
  htmlP1 ++ escapeHtml nombre ++ htmlP2 ++ escapeHtml email ++
  htmlP3 ++ escapeHtml telefono ++ htmlP4 ++ escapeHtml asunto ++
  htmlP5 ++ escapeHtml mensaje ++ htmlP6

/-- The argument of `transporter.sendMail`. -/
structure Mail where
  sender : Str
  recipient : Option Str
  replyTo : Str
  subject : Str
  text : Str
  html : Str
deriving DecidableEq, Repr

/-- The mail the handler builds from a submission that passed validation. -/
def mkMail (env : Env) (sub : Submission) : Mail :=
  let nombre := sub.nombre.getD []
  let email := sub.email.getD []
  { sender := str "\"Portfolio Web\" <" ++ tmpl env.SMTP_USER ++ str ">"
    recipient := env.CONTACT_TO
    replyTo := email
    subject := subjectLine nombre sub.asunto
    text := textBody nombre email (orDash sub.telefono) (orDash sub.asunto)
      (sub.mensaje.getD [])
    html := htmlBody nombre email (orDash sub.telefono) (orDash sub.asunto)
      (sub.mensaje.getD []) }

/-- What the contact handler does with a request body: answer a client error
immediately, or construct a transport and hand it a mail to send.  (The
optional `transporter.verify()` probe is advisory only: its failure is
logged and does not change the action, so it does not appear here.) -/
inductive ContactAction where
  | reject (status : Nat) (error : Str)
  | send (t : Transport) (m : Mail)
deriving DecidableEq, Repr

/-- The body of `app.post("/api/contact")` up to the delivery attempt. -/
def contactHandler (env : Env) (sub : Submission) : ContactAction :=
  if !truthy sub.nombre || !truthy sub.email || !truthy sub.mensaje then
    .reject 400 (str "Faltan campos requeridos")
  else if !isEmail (sub.email.getD []) then
    .reject 400 (str "Email inválido")
  else
    .send (mkTransport env) (mkMail env sub)

/-- Whether the action is a send. -/
def isSendAction : ContactAction → Bool
  | .send _ _ => true
  | .reject _ _ => false

/-- How many delivery attempts a request body gives rise to. -/
def sendAttempts (env : Env) (sub : Submission) : Nat :=
  match contactHandler env sub with
  | .reject _ _ => 0
  | .send _ _ => 1

/-- The outcome of the single `sendMail` call, as the handler observes it:
success with a message id, or a thrown error carrying a message. -/
inductive SendOutcome where
  | ok (messageId : Str)
  | fail (message : Str)
deriving DecidableEq, Repr

/-- A JSON response from the endpoint. -/
structure ApiResponse where
  status : Nat
  ok : Bool
  error : Option Str
  messageId : Option Str
deriving DecidableEq, Repr

/-- The response of `POST /api/contact` together with what the error
middleware logs: a rejected validation answers directly; a delivery failure
reaches `next(err)` and then the error middleware, which logs the raw error
and answers 500 with `err?.message || "Error interno"`. -/
def contactResponse (env : Env) (sub : Submission) (send : SendOutcome) :
    ApiResponse × Option Str :=
  match contactHandler env sub with
  | .reject s m => ({ status := s, ok := false, error := some m, messageId := none }, none)
  | .send _ _ =>
    match send with
    | .ok id => ({ status := 200, ok := true, error := none, messageId := some id }, none)
    | .fail m =>
        ({ status := 500, ok := false,
           error := some (if m.isEmpty then str "Error interno" else m),
           messageId := none }, some m)

/-- The base CORS whitelist from `server.js`. -/
def baseWhitelist : List Str :=
  [str "http://127.0.0.1:5500", str "http://localhost:5500",
   str "http://localhost:5173", str "http://127.0.0.1:5173",
   str "https://alv1999.github.io"]

/-- `"a,b".split(",")` of JavaScript on the model strings. -/
def splitOnComma : Str → List Str
  | [] => [[]]
  | c :: cs =>
      if c = ',' then [] :: splitOnComma cs
      else
        match splitOnComma cs with
        | r :: rs => (c :: r) :: rs
        | [] => [[c]]

/-- Extra origins from `CORS_ORIGIN`: split on commas, trim, drop empties. -/
def envOrigins (env : Env) : List Str :=
  ((splitOnComma (env.CORS_ORIGIN.getD [])).map jsTrim).filter
    (fun s => !s.isEmpty)

/-- Helper for `jsSetDedup`: drop elements already seen. -/
def jsSetDedupAux (seen : List Str) : List Str → List Str
  | [] => []
  | x :: xs =>
      if seen.contains x then jsSetDedupAux seen xs
      else x :: jsSetDedupAux (x :: seen) xs

/-- `[...new Set(l)]`: deduplication keeping the first occurrence. -/
def jsSetDedup (l : List Str) : List Str := jsSetDedupAux [] l

/-- The final CORS whitelist. -/
def WHITELIST (env : Env) : List Str :=
  jsSetDedup (baseWhitelist ++ envOrigins env)

/-- `corsOptions.origin`: a falsy origin (absent or empty header) is
allowed; otherwise the origin must equal or start with a whitelist entry. -/
def corsAllowed (env : Env) (origin : Option Str) : Bool :=
  if !truthy origin then true
  else
    (WHITELIST env).any
      (fun w => origin.getD [] == w || w.isPrefixOf (origin.getD []))

/-- Outcome of a `POST /api/contact` request at the middleware level: the
CORS layer either rejects it before the handler runs, or the handler runs. -/
inductive RequestOutcome where
  | corsRejected (msg : Str)
  | handled (action : ContactAction)
deriving DecidableEq, Repr

/-- The middleware chain for the contact route: CORS first, then the
handler. -/
def contactEndpoint (env : Env) (origin : Option Str) (sub : Submission) :
    RequestOutcome :=
  if corsAllowed env origin then .handled (contactHandler env sub)
  else .corsRejected (str "CORS: origen no permitido → " ++ origin.getD [])

/-- The `envs` object of the debug route's response. -/
structure DebugEnvs where
  smtpHost : Bool
  smtpPortSet : Bool
  smtpUser : Bool
  smtpPass : Bool
  contactTo : Bool
  corsOrigin : Str
deriving DecidableEq, Repr

/-- The debug route's JSON response (the `time` field, a wall-clock
timestamp, is outside the model). -/
structure DebugResponse where
  ok : Bool
  path : Str
  envs : DebugEnvs
deriving DecidableEq, Repr

/-- The debug route: registered only when the trimmed `DEBUG_URL` is
non-empty and starts with `/`; it reports `!!` of each required variable
and the raw `CORS_ORIGIN` value. -/
def debugRoute (env : Env) : Option DebugResponse :=
  match jsTrim (env.DEBUG_URL.getD []) with
  | [] => none
  | '/' :: rest =>
      some { ok := true
             path := '/' :: rest
             envs := { smtpHost := truthy env.SMTP_HOST
                       smtpPortSet := truthy env.SMTP_PORT
                       smtpUser := truthy env.SMTP_USER
                       smtpPass := truthy env.SMTP_PASS
                       contactTo := truthy env.CONTACT_TO
                       corsOrigin := env.CORS_ORIGIN.getD [] } }
  | _ => none

/-- Projection of the debug response onto the presence bits of the five
required configuration entries. -/
def requiredBits (d : DebugEnvs) : Bool × Bool × Bool × Bool × Bool :=
  (d.smtpHost, d.smtpPortSet, d.smtpUser, d.smtpPass, d.contactTo)

/-! ### Concrete data used by the witnesses -/

/-- A fully configured environment. -/
def envA : Env :=
  { SMTP_HOST := some (str "smtp.gmail.com")
    SMTP_PORT := some (str "465")
    SMTP_USER := some (str "me@gmail.com")
    SMTP_PASS := some (str "apppassword")
    CONTACT_TO := some (str "dest@gmail.com")
    SMTP_SECURE := none
    CORS_ORIGIN := none
    DEBUG_URL := none }

/-- A submission that misses the name field. -/
def subMissing : Submission :=
  { nombre := none, email := some (str "a@b.c"), telefono := none
    mensaje := some (str "Hola"), asunto := none }

/-- A minimal valid submission. -/
def subValid : Submission :=
  { nombre := some (str "Ana"), email := some (str "a@b.c"), telefono := none
    mensaje := some (str "Hola"), asunto := none }

/-! ### Properties of `escapeHtml` -/

theorem replaceChar_append (c : Char) (r : Str) (a b : Str) :
    replaceChar c r (a ++ b) = replaceChar c r a ++ replaceChar c r b := by
  induction a with
  | nil => simp [replaceChar]
  | cons x xs ih =>
    by_cases h : x = c <;> simp [replaceChar, h, ih]

theorem escapeHtml_append (a b : Str) :
    escapeHtml (a ++ b) = escapeHtml a ++ escapeHtml b := by
  simp [escapeHtml, replaceChar_append]

theorem escapeHtml_cons (x : Char) (s : Str) :
    escapeHtml (x :: s) = escapeHtml [x] ++ escapeHtml s := by
  have h := escapeHtml_append [x] s
  simpa using h

theorem escapeHtml_plain (x : Char) (h1 : ¬x = '&') (h2 : ¬x = '<')
    (h3 : ¬x = '>') (h4 : ¬x = dquote) (h5 : ¬x = squote) :
    escapeHtml [x] = [x] := by
  simp [escapeHtml, replaceChar, str, h1, h2, h3, h4, h5]

theorem noUnescaped_cons_plain (x : Char) (t : Str) (h1 : ¬x = '<')
    (h2 : ¬x = '>') (h3 : ¬x = dquote) (h4 : ¬x = squote) (h5 : ¬x = '&') :
    noUnescaped (x :: t) = noUnescaped t := by
  simp [noUnescaped, h1, h2, h3, h4, h5]

theorem noUnescaped_amp (t : Str) :
    noUnescaped ('&' :: 'a' :: 'm' :: 'p' :: ';' :: t) = noUnescaped t := by
  simp +decide [noUnescaped, entityTails, str, List.isPrefixOf]

theorem noUnescaped_lt (t : Str) :
    noUnescaped ('&' :: 'l' :: 't' :: ';' :: t) = noUnescaped t := by
  simp +decide [noUnescaped, entityTails, str, List.isPrefixOf]

theorem noUnescaped_gt (t : Str) :
    noUnescaped ('&' :: 'g' :: 't' :: ';' :: t) = noUnescaped t := by
  simp +decide [noUnescaped, entityTails, str, List.isPrefixOf]

theorem noUnescaped_quot (t : Str) :
    noUnescaped ('&' :: 'q' :: 'u' :: 'o' :: 't' :: ';' :: t) = noUnescaped t := by
  simp +decide [noUnescaped, entityTails, str, List.isPrefixOf]

theorem noUnescaped_apos (t : Str) :
    noUnescaped ('&' :: '#' :: '0' :: '3' :: '9' :: ';' :: t) = noUnescaped t := by
  simp +decide [noUnescaped, entityTails, str, List.isPrefixOf]

theorem escapeHtml_amp : escapeHtml ['&'] = '&' :: 'a' :: 'm' :: 'p' :: ';' :: [] := rfl

theorem escapeHtml_lt : escapeHtml ['<'] = '&' :: 'l' :: 't' :: ';' :: [] := rfl

theorem escapeHtml_gt : escapeHtml ['>'] = '&' :: 'g' :: 't' :: ';' :: [] := rfl

theorem escapeHtml_dquote :
    escapeHtml [dquote] = '&' :: 'q' :: 'u' :: 'o' :: 't' :: ';' :: [] := rfl

theorem escapeHtml_squote :
    escapeHtml [squote] = '&' :: '#' :: '0' :: '3' :: '9' :: ';' :: [] := rfl

theorem noUnescaped_escapeHtml (s : Str) : noUnescaped (escapeHtml s) = true := by
  induction s with
  | nil => rfl
  | cons x xs ih =>
    rw [escapeHtml_cons]
    by_cases h1 : x = '&'
    · subst h1
      rw [escapeHtml_amp]
      simpa [noUnescaped_amp] using ih
    by_cases h2 : x = '<'
    · subst h2
      rw [escapeHtml_lt]
      simpa [noUnescaped_lt] using ih
    by_cases h3 : x = '>'
    · subst h3
      rw [escapeHtml_gt]
      simpa [noUnescaped_gt] using ih
    by_cases h4 : x = dquote
    · subst h4
      rw [escapeHtml_dquote]
      simpa [noUnescaped_quot] using ih
    by_cases h5 : x = squote
    · subst h5
      rw [escapeHtml_squote]
      simpa [noUnescaped_apos] using ih
    rw [escapeHtml_plain x h1 h2 h3 h4 h5, List.singleton_append,
      noUnescaped_cons_plain x _ h2 h3 h4 h5 h1]
    exact ih

/-! ### Inversion of the handler -/

theorem contactHandler_send_inv (env : Env) (sub : Submission) (t : Transport)
    (m : Mail) (h : contactHandler env sub = .send t m) :
    t = mkTransport env ∧ m = mkMail env sub := by
  unfold contactHandler at h
  split at h
  · exact ContactAction.noConfusion h
  · split at h
    · exact ContactAction.noConfusion h
    · injection h with h1 h2
      exact ⟨h1.symm, h2.symm⟩

/-! ### Claim theorems -/

/-- Claim C1: a submission in which `nombre`, `email` or `mensaje` is absent
or empty is answered with the 400 missing-fields validation error, and no
transport is constructed and no delivery is attempted. -/
theorem contact_missing_fields_rejected (env : Env) (sub : Submission)
    (h : sub.nombre = none ∨ sub.nombre = some [] ∨ sub.email = none ∨
         sub.email = some [] ∨ sub.mensaje = none ∨ sub.mensaje = some []) :
    contactHandler env sub = .reject 400 (str "Faltan campos requeridos") ∧
    sendAttempts env sub = 0 := by
  have hcond : (!truthy sub.nombre || !truthy sub.email || !truthy sub.mensaje) = true := by
    rcases h with h | h | h | h | h | h <;> simp [truthy, h]
  refine ⟨?_, ?_⟩
  · simp [contactHandler, hcond]
  · simp [sendAttempts, contactHandler, hcond]

theorem contact_missing_fields_rejected_witness :
    (subMissing.nombre = none ∨ subMissing.nombre = some [] ∨
     subMissing.email = none ∨ subMissing.email = some [] ∨
     subMissing.mensaje = none ∨ subMissing.mensaje = some []) ∧
    (contactHandler envA subMissing = .reject 400 (str "Faltan campos requeridos") ∧
     sendAttempts envA subMissing = 0) :=
  ⟨Or.inl rfl, contact_missing_fields_rejected envA subMissing (Or.inl rfl)⟩

/-- Claim C2: whenever the handler reaches the send, the HTML body it built
is the static template interleaved with user-derived segments, each segment
is the `escapeHtml` image of the corresponding submission field, and each
contains no unescaped `<`, `>`, `&`, double quote or single quote. -/
theorem contact_html_user_fields_escaped (env : Env) (sub : Submission)
    (t : Transport) (m : Mail) (h : contactHandler env sub = .send t m) :
    ∃ u1 u2 u3 u4 u5,
      m.html = htmlP1 ++ u1 ++ htmlP2 ++ u2 ++ htmlP3 ++ u3 ++ htmlP4 ++ u4 ++
        htmlP5 ++ u5 ++ htmlP6 ∧
      u1 = escapeHtml (sub.nombre.getD []) ∧
      u2 = escapeHtml (sub.email.getD []) ∧
      u3 = escapeHtml (orDash sub.telefono) ∧
      u4 = escapeHtml (orDash sub.asunto) ∧
      u5 = escapeHtml (sub.mensaje.getD []) ∧
      noUnescaped u1 = true ∧ noUnescaped u2 = true ∧ noUnescaped u3 = true ∧
      noUnescaped u4 = true ∧ noUnescaped u5 = true := by
  obtain ⟨-, hm⟩ := contactHandler_send_inv env sub t m h
  subst hm
  exact ⟨_, _, _, _, _, rfl, rfl, rfl, rfl, rfl, rfl,
    noUnescaped_escapeHtml _, noUnescaped_escapeHtml _, noUnescaped_escapeHtml _,
    noUnescaped_escapeHtml _, noUnescaped_escapeHtml _⟩

theorem contact_html_user_fields_escaped_witness :
    contactHandler envA subValid = .send (mkTransport envA) (mkMail envA subValid) ∧
    (∃ u1 u2 u3 u4 u5,
      (mkMail envA subValid).html = htmlP1 ++ u1 ++ htmlP2 ++ u2 ++ htmlP3 ++ u3 ++
        htmlP4 ++ u4 ++ htmlP5 ++ u5 ++ htmlP6 ∧
      u1 = escapeHtml (subValid.nombre.getD []) ∧
      u2 = escapeHtml (subValid.email.getD []) ∧
      u3 = escapeHtml (orDash subValid.telefono) ∧
      u4 = escapeHtml (orDash subValid.asunto) ∧
      u5 = escapeHtml (subValid.mensaje.getD []) ∧
      noUnescaped u1 = true ∧ noUnescaped u2 = true ∧ noUnescaped u3 = true ∧
      noUnescaped u4 = true ∧ noUnescaped u5 = true) :=
  ⟨by decide, contact_html_user_fields_escaped envA subValid (mkTransport envA)
    (mkMail envA subValid) (by decide)⟩

/-- Claim C3 counterexample: a request carrying an empty `Origin` header
matches no whitelist entry (exactly or by prefix), yet the falsy-origin
check lets it through to the handler. -/
theorem cors_empty_origin_allowed_despite_no_match :
    (∀ w ∈ WHITELIST envA, ¬(([] : Str) = w ∨ w.isPrefixOf ([] : Str) = true)) ∧
    contactEndpoint envA (some []) subValid = .handled (contactHandler envA subValid) :=
  ⟨by decide, by decide⟩

/-- Claim C3 (amended): a request with a non-empty `Origin` header reaches
the handler exactly when the origin equals or extends a whitelist entry,
any other such origin is rejected by the CORS layer before the handler, a
request with no `Origin` header always reaches the handler, and so does —
in every environment and for every submission — a request whose `Origin`
header carries the empty value. -/
theorem cors_allowlist_decides_access (env : Env) (origin : Str)
    (sub : Submission) (hne : origin ≠ []) :
    (contactEndpoint env (some origin) sub = .handled (contactHandler env sub) ↔
      ∃ w ∈ WHITELIST env, origin = w ∨ w.isPrefixOf origin = true) ∧
    (¬(∃ w ∈ WHITELIST env, origin = w ∨ w.isPrefixOf origin = true) →
      contactEndpoint env (some origin) sub =
        .corsRejected (str "CORS: origen no permitido → " ++ origin)) ∧
    contactEndpoint env none sub = .handled (contactHandler env sub) ∧
    contactEndpoint env (some []) sub = .handled (contactHandler env sub) := by
  have htr : truthy (some origin) = true := by
    cases origin with
    | nil => exact absurd rfl hne
    | cons c cs => rfl
  have hca : corsAllowed env (some origin) =
      (WHITELIST env).any (fun w => origin == w || w.isPrefixOf origin) := by
    simp [corsAllowed, htr]
  have hiff : ((WHITELIST env).any (fun w => origin == w || w.isPrefixOf origin) = true) ↔
      ∃ w ∈ WHITELIST env, origin = w ∨ w.isPrefixOf origin = true := by
    simp [List.any_eq_true]
  by_cases hc : corsAllowed env (some origin) = true
  · have hex := hiff.mp (hca.symm.trans hc)
    refine ⟨⟨fun _ => hex, fun _ => by simp [contactEndpoint, hc]⟩, ?_, ?_, ?_⟩
    · intro hnex; exact absurd hex hnex
    · simp [contactEndpoint, corsAllowed, truthy]
    · simp [contactEndpoint, corsAllowed, truthy]
  · have hnex : ¬∃ w ∈ WHITELIST env, origin = w ∨ w.isPrefixOf origin = true :=
      fun hex => hc (hca.trans (hiff.mpr hex))
    refine ⟨⟨fun h => ?_, fun hex => absurd hex hnex⟩, fun _ => ?_, ?_, ?_⟩
    · exfalso
      simp [contactEndpoint, hc] at h
    · simp [contactEndpoint, hc]
    · simp [contactEndpoint, corsAllowed, truthy]
    · simp [contactEndpoint, corsAllowed, truthy]

theorem cors_allowlist_decides_access_witness :
    str "https://alv1999.github.io/repo" ≠ [] ∧
    ((contactEndpoint envA (some (str "https://alv1999.github.io/repo")) subValid =
        .handled (contactHandler envA subValid) ↔
      ∃ w ∈ WHITELIST envA, str "https://alv1999.github.io/repo" = w ∨
        w.isPrefixOf (str "https://alv1999.github.io/repo") = true) ∧
    (¬(∃ w ∈ WHITELIST envA, str "https://alv1999.github.io/repo" = w ∨
        w.isPrefixOf (str "https://alv1999.github.io/repo") = true) →
      contactEndpoint envA (some (str "https://alv1999.github.io/repo")) subValid =
        .corsRejected (str "CORS: origen no permitido → " ++
          str "https://alv1999.github.io/repo")) ∧
    contactEndpoint envA none subValid = .handled (contactHandler envA subValid) ∧
    contactEndpoint envA (some []) subValid =
      .handled (contactHandler envA subValid)) :=
  ⟨by decide, cors_allowlist_decides_access envA
    (str "https://alv1999.github.io/repo") subValid (by decide)⟩

/-- A submission whose email is a well-shaped address wrapped in blanks. -/
def subPaddedEmail : Submission :=
  { nombre := some (str "Ana"), email := some (str "a@b.c "), telefono := none
    mensaje := some (str "Hola"), asunto := none }

/-- Claim C4 counterexample: the email value "a@b.c " (with a trailing
blank) does not match the anchored shape, yet the handler proceeds to the
send instead of returning the validation error. -/
theorem contact_untrimmed_email_accepted :
    emailShape (str "a@b.c ") = false ∧
    isSendAction (contactHandler envA subPaddedEmail) = true :=
  ⟨by decide, by decide⟩

/-- Claim C4 (amended): when name, message and email are present and
non-empty but the email value, after trimming surrounding whitespace, does
not match the `local@domain.tld` shape, the handler answers the 400
invalid-email error and attempts no send. -/
theorem contact_invalid_trimmed_email_rejected (env : Env) (sub : Submission)
    (hn : truthy sub.nombre = true) (he : truthy sub.email = true)
    (hm : truthy sub.mensaje = true)
    (hshape : emailShape (jsTrim (sub.email.getD [])) = false) :
    contactHandler env sub = .reject 400 (str "Email inválido") ∧
    sendAttempts env sub = 0 := by
  have hiem : isEmail (sub.email.getD []) = false := hshape
  refine ⟨?_, ?_⟩ <;> simp [contactHandler, sendAttempts, hn, he, hm, hiem]

/-- A submission with a hopeless email value. -/
def subBadEmail : Submission :=
  { nombre := some (str "Ana"), email := some (str "not-an-email")
    telefono := none, mensaje := some (str "Hola"), asunto := none }

theorem contact_invalid_trimmed_email_rejected_witness :
    (truthy subBadEmail.nombre = true ∧ truthy subBadEmail.email = true ∧
     truthy subBadEmail.mensaje = true ∧
     emailShape (jsTrim (subBadEmail.email.getD [])) = false) ∧
    (contactHandler envA subBadEmail = .reject 400 (str "Email inválido") ∧
     sendAttempts envA subBadEmail = 0) :=
  ⟨⟨by decide, by decide, by decide, by decide⟩,
   contact_invalid_trimmed_email_rejected envA subBadEmail
    (by decide) (by decide) (by decide) (by decide)⟩

/-- Claim C5: whenever the handler reaches the send, the mail's reply-to is
the submitter's email, its recipient is the configured `CONTACT_TO`, and
its sender identity is the fixed display name over `SMTP_USER`. -/
theorem contact_mail_addresses (env : Env) (sub : Submission) (t : Transport)
    (m : Mail) (h : contactHandler env sub = .send t m) :
    m.replyTo = sub.email.getD [] ∧ m.recipient = env.CONTACT_TO ∧
    m.sender = str "\"Portfolio Web\" <" ++ tmpl env.SMTP_USER ++ str ">" := by
  obtain ⟨-, hm⟩ := contactHandler_send_inv env sub t m h
  subst hm
  exact ⟨rfl, rfl, rfl⟩

theorem contact_mail_addresses_witness :
    contactHandler envA subValid = .send (mkTransport envA) (mkMail envA subValid) ∧
    ((mkMail envA subValid).replyTo = subValid.email.getD [] ∧
     (mkMail envA subValid).recipient = envA.CONTACT_TO ∧
     (mkMail envA subValid).sender =
       str "\"Portfolio Web\" <" ++ tmpl envA.SMTP_USER ++ str ">") :=
  ⟨by decide, contact_mail_addresses envA subValid (mkTransport envA)
    (mkMail envA subValid) (by decide)⟩

/-- A valid submission carrying an empty-string subject. -/
def subEmptyAsunto : Submission :=
  { nombre := some (str "Ana"), email := some (str "a@b.c"), telefono := none
    mensaje := some (str "Hola"), asunto := some [] }

/-- Claim C6 counterexample: the derived subject is the Spanish template
"Nuevo mensaje de ...", not "New message from ..."; moreover a provided but
empty subject still yields the default template rather than a
parenthesised one. -/
theorem contact_subject_is_spanish_template :
    contactHandler envA subValid = .send (mkTransport envA) (mkMail envA subValid) ∧
    (mkMail envA subValid).subject = str "Nuevo mensaje de Ana" ∧
    ¬(mkMail envA subValid).subject = str "New message from Ana" ∧
    (mkMail envA subEmptyAsunto).subject = str "Nuevo mensaje de Ana" ∧
    ¬(mkMail envA subEmptyAsunto).subject = str "() Nuevo mensaje de Ana" := by
  decide

/-- Claim C6 (amended): for every submission that reaches the send, the
subject equals "Nuevo mensaje de \x7bname\x7d" when the subject field is
omitted or empty, and "(\x7bsubject\x7d) Nuevo mensaje de \x7bname\x7d"
when it is provided non-empty. -/
theorem contact_subject_template (env : Env) (sub : Submission) (t : Transport)
    (m : Mail) (h : contactHandler env sub = .send t m) :
    ((sub.asunto = none ∨ sub.asunto = some []) →
      m.subject = str "Nuevo mensaje de " ++ sub.nombre.getD []) ∧
    (∀ a, sub.asunto = some a → a ≠ [] →
      m.subject = str "(" ++ a ++ str ") Nuevo mensaje de " ++ sub.nombre.getD []) := by
  obtain ⟨-, hm⟩ := contactHandler_send_inv env sub t m h
  subst hm
  constructor
  · rintro (ha | ha) <;> simp [mkMail, subjectLine, truthy, ha]
  · intro a ha hne
    have hta : truthy (some a) = true := by
      cases a with
      | nil => exact absurd rfl hne
      | cons c cs => rfl
    simp [mkMail, subjectLine, ha, hta]

/-- A valid submission with a non-empty subject. -/
def subWithAsunto : Submission :=
  { nombre := some (str "Ana"), email := some (str "a@b.c"), telefono := none
    mensaje := some (str "Hola"), asunto := some (str "Hi") }

theorem contact_subject_template_witness :
    contactHandler envA subWithAsunto =
      .send (mkTransport envA) (mkMail envA subWithAsunto) ∧
    (((subWithAsunto.asunto = none ∨ subWithAsunto.asunto = some []) →
      (mkMail envA subWithAsunto).subject =
        str "Nuevo mensaje de " ++ subWithAsunto.nombre.getD []) ∧
    (∀ a, subWithAsunto.asunto = some a → a ≠ [] →
      (mkMail envA subWithAsunto).subject =
        str "(" ++ a ++ str ") Nuevo mensaje de " ++ subWithAsunto.nombre.getD [])) :=
  ⟨by decide, contact_subject_template envA subWithAsunto (mkTransport envA)
    (mkMail envA subWithAsunto) (by decide)⟩

/-- Claim C7 counterexample: a delivery failure whose error carries an
empty message is answered with the generic "Error interno" text, not with
the (empty) cause message. -/
theorem contact_empty_error_message_generic :
    (contactResponse envA subValid (SendOutcome.fail [])).1 =
      { status := 500, ok := false, error := some (str "Error interno"),
        messageId := none } ∧
    ¬(contactResponse envA subValid (SendOutcome.fail [])).1.error = some ([] : Str) := by
  decide

/-- Claim C7 (amended): on a request whose send attempt fails, the endpoint
answers 500 with the cause's message when that message is non-empty and the
generic "Error interno" otherwise, the raw error is logged by the error
middleware, and the request gives rise to exactly one delivery attempt. -/
theorem contact_send_failure_response (env : Env) (sub : Submission)
    (msg : Str) (h : isSendAction (contactHandler env sub) = true) :
    (contactResponse env sub (SendOutcome.fail msg)).1 =
      { status := 500, ok := false,
        error := some (if msg.isEmpty then str "Error interno" else msg),
        messageId := none } ∧
    (contactResponse env sub (SendOutcome.fail msg)).2 = some msg ∧
    sendAttempts env sub = 1 := by
  cases hc : contactHandler env sub with
  | reject s e =>
      rw [hc] at h
      simp [isSendAction] at h
  | send t m =>
      refine ⟨?_, ?_, ?_⟩ <;> simp [contactResponse, sendAttempts, hc]

theorem contact_send_failure_response_witness :
    isSendAction (contactHandler envA subValid) = true ∧
    ((contactResponse envA subValid (SendOutcome.fail (str "Invalid login"))).1 =
      { status := 500, ok := false,
        error := some (if (str "Invalid login").isEmpty then str "Error interno"
          else str "Invalid login"),
        messageId := none } ∧
    (contactResponse envA subValid (SendOutcome.fail (str "Invalid login"))).2 =
      some (str "Invalid login") ∧
    sendAttempts envA subValid = 1) :=
  ⟨by decide, contact_send_failure_response envA subValid
    (str "Invalid login") (by decide)⟩

/-! ### The debug route -/

theorem debugRoute_envs (e : Env) (r : DebugResponse) (h : debugRoute e = some r) :
    r.envs = { smtpHost := truthy e.SMTP_HOST, smtpPortSet := truthy e.SMTP_PORT,
               smtpUser := truthy e.SMTP_USER, smtpPass := truthy e.SMTP_PASS,
               contactTo := truthy e.CONTACT_TO,
               corsOrigin := e.CORS_ORIGIN.getD [] } := by
  unfold debugRoute at h
  split at h
  · exact Option.noConfusion h
  · injection h with h'
    subst h'
    rfl
  · exact Option.noConfusion h

/-- Claim C8: the enabled debug route reports only the boolean presence of
the five required configuration entries: each reported bit is the
truthiness of the entry, and any two environments agreeing on those
presence bits produce identical responses with respect to those entries. -/
theorem debug_route_reports_presence_only (e1 e2 : Env) (r1 r2 : DebugResponse)
    (h1 : debugRoute e1 = some r1) (h2 : debugRoute e2 = some r2)
    (hh : truthy e1.SMTP_HOST = truthy e2.SMTP_HOST)
    (hp : truthy e1.SMTP_PORT = truthy e2.SMTP_PORT)
    (hu : truthy e1.SMTP_USER = truthy e2.SMTP_USER)
    (hw : truthy e1.SMTP_PASS = truthy e2.SMTP_PASS)
    (hc : truthy e1.CONTACT_TO = truthy e2.CONTACT_TO) :
    requiredBits r1.envs = requiredBits r2.envs ∧
    r1.envs.smtpHost = truthy e1.SMTP_HOST ∧
    r1.envs.smtpPortSet = truthy e1.SMTP_PORT ∧
    r1.envs.smtpUser = truthy e1.SMTP_USER ∧
    r1.envs.smtpPass = truthy e1.SMTP_PASS ∧
    r1.envs.contactTo = truthy e1.CONTACT_TO := by
  rw [debugRoute_envs e1 r1 h1, debugRoute_envs e2 r2 h2]
  simp [requiredBits, hh, hp, hu, hw, hc]

/-- An environment exposing the debug route. -/
def envDbg1 : Env := { envA with DEBUG_URL := some (str "/debug") }

/-- Same presence pattern as `envDbg1` with different secret values. -/
def envDbg2 : Env :=
  { envA with SMTP_HOST := some (str "smtp.example.org")
              SMTP_PASS := some (str "otherpassword")
              DEBUG_URL := some (str "/debug") }

/-- The debug response of `envDbg1` (and of `envDbg2`). -/
def dbgResp : DebugResponse :=
  { ok := true, path := str "/debug"
    envs := { smtpHost := true, smtpPortSet := true, smtpUser := true,
              smtpPass := true, contactTo := true, corsOrigin := [] } }

theorem debug_route_reports_presence_only_witness :
    (debugRoute envDbg1 = some dbgResp ∧ debugRoute envDbg2 = some dbgResp ∧
     truthy envDbg1.SMTP_HOST = truthy envDbg2.SMTP_HOST ∧
     truthy envDbg1.SMTP_PORT = truthy envDbg2.SMTP_PORT ∧
     truthy envDbg1.SMTP_USER = truthy envDbg2.SMTP_USER ∧
     truthy envDbg1.SMTP_PASS = truthy envDbg2.SMTP_PASS ∧
     truthy envDbg1.CONTACT_TO = truthy envDbg2.CONTACT_TO) ∧
    (requiredBits dbgResp.envs = requiredBits dbgResp.envs ∧
     dbgResp.envs.smtpHost = truthy envDbg1.SMTP_HOST ∧
     dbgResp.envs.smtpPortSet = truthy envDbg1.SMTP_PORT ∧
     dbgResp.envs.smtpUser = truthy envDbg1.SMTP_USER ∧
     dbgResp.envs.smtpPass = truthy envDbg1.SMTP_PASS ∧
     dbgResp.envs.contactTo = truthy envDbg1.CONTACT_TO) :=
  ⟨⟨by decide, by decide, by decide, by decide, by decide, by decide, by decide⟩,
   debug_route_reports_presence_only envDbg1 envDbg2 dbgResp dbgResp
    (by decide) (by decide) (by decide) (by decide) (by decide) (by decide)
    (by decide)⟩

/-- Claim C10: the transport-security flag is resolved by the fixed default
rule: a defined `SMTP_SECURE` makes the flag the comparison of its value
with "true"; an undefined one makes the flag exactly the resolved port
being 465; and an unset `SMTP_PORT` resolves the port to 465. -/
theorem smtp_secure_resolution (env : Env) :
    (∀ s, env.SMTP_SECURE = some s → smtpSecure env = (s == str "true")) ∧
    (env.SMTP_SECURE = none →
      (smtpSecure env = true ↔ smtpPort env = JsNum.num 465)) ∧
    (env.SMTP_PORT = none → smtpPort env = JsNum.num 465) := by
  refine ⟨?_, ?_, ?_⟩
  · intro s hs
    simp [smtpSecure, hs]
  · intro hs
    simp only [smtpSecure, hs]
    cases hp : smtpPort env with
    | num n =>
        simp [jsEq]
    | nan =>
        simp [jsEq]
  · intro hp
    simp [smtpPort, hp]

/-- An environment leaving both `SMTP_SECURE` and `SMTP_PORT` unset. -/
def envBare : Env :=
  { SMTP_HOST := some (str "smtp.gmail.com"), SMTP_PORT := none
    SMTP_USER := some (str "me@gmail.com"), SMTP_PASS := some (str "pw")
    CONTACT_TO := some (str "dest@gmail.com"), SMTP_SECURE := none
    CORS_ORIGIN := none, DEBUG_URL := none }

theorem smtp_secure_resolution_witness :
    (envBare.SMTP_SECURE = none ∧ envBare.SMTP_PORT = none) ∧
    ((smtpSecure envBare = true ↔ smtpPort envBare = JsNum.num 465) ∧
     smtpPort envBare = JsNum.num 465) :=
  ⟨⟨rfl, rfl⟩,
   ⟨(smtp_secure_resolution envBare).2.1 rfl,
    (smtp_secure_resolution envBare).2.2 rfl⟩⟩

/-! ### Trimming and the email shape -/

theorem dropWhile_head_false (p : Char → Bool) (l : Str) (a : Char)
    (rest : Str) (h : l.dropWhile p = a :: rest) : p a = false := by
  induction l with
  | nil => simp at h
  | cons x xs ih =>
    rw [List.dropWhile_cons] at h
    by_cases hx : p x = true
    · rw [if_pos hx] at h
      exact ih h
    · rw [if_neg hx] at h
      injection h with h1 h2
      subst h1
      simpa using hx

theorem emailShape_parts (t : Str) (h : emailShape t = true) :
    ∃ lp dom, t = lp ++ '@' :: dom ∧ lp ≠ [] ∧ lp.all emailChar = true ∧
      dom ≠ [] ∧ dom.all emailChar = true := by
  rcases hd : t.dropWhile (fun c => !(c = '@')) with - | ⟨a, dom⟩
  · unfold emailShape at h
    rw [hd] at h
    simp at h
  · have ha : a = '@' := by
      have hfa := dropWhile_head_false _ t a dom hd
      simpa using hfa
    subst ha
    have hcond : (!(t.takeWhile (fun c => !(c = '@'))).isEmpty &&
        (t.takeWhile (fun c => !(c = '@'))).all emailChar &&
        dom.all emailChar && ((dom.drop 1).dropLast.contains '.')) = true := by
      unfold emailShape at h
      rw [hd] at h
      exact h
    simp only [Bool.and_eq_true] at hcond
    obtain ⟨⟨⟨hlpne', hlpall⟩, hdomall⟩, hdot⟩ := hcond
    refine ⟨t.takeWhile (fun c => !(c = '@')), dom, ?_, ?_, hlpall, ?_, hdomall⟩
    · conv_lhs => rw [← List.takeWhile_append_dropWhile (fun c => !(c = '@')) t]
      rw [hd]
    · intro hnil
      rw [hnil] at hlpne'
      simp at hlpne'
    · intro hnil
      subst hnil
      simp at hdot

theorem jsTrim_wrap (ws1 ws2 : Str) (c d : Char) (l1 l2 : Str)
    (hform : c :: l1 = l2 ++ [d])
    (hc : isSpaceJs c = false) (hd : isSpaceJs d = false)
    (h1 : ∀ x ∈ ws1, isSpaceJs x = true) (h2 : ∀ x ∈ ws2, isSpaceJs x = true) :
    jsTrim (ws1 ++ (c :: l1) ++ ws2) = c :: l1 := by
  unfold jsTrim
  rw [List.append_assoc, List.dropWhile_append_of_pos h1, List.cons_append,
    List.dropWhile_cons]
  rw [if_neg (by simp [hc])]
  rw [← List.cons_append, hform, List.reverse_append, List.reverse_append,
    List.dropWhile_append_of_pos (fun x hx => h2 x (List.mem_reverse.mp hx))]
  simp only [List.reverse_cons, List.reverse_nil, List.nil_append,
    List.singleton_append, List.dropWhile_cons]
  rw [if_neg (by simp [hd])]
  simp [List.reverse_append]

/-! ### Claim C9 -/

/-- Claim C9: a submission whose email is a well-shaped address wrapped in
leading or trailing whitespace passes validation (the shape is tested on
the trimmed value), and the original untrimmed string is used verbatim as
the outbound reply-to address. -/
theorem email_trimmed_validation_untrimmed_replyto (env : Env)
    (sub : Submission) (e core ws1 ws2 : Str)
    (hemail : sub.email = some e) (hsplit : e = ws1 ++ core ++ ws2)
    (hw1 : ∀ x ∈ ws1, isSpaceJs x = true) (hw2 : ∀ x ∈ ws2, isSpaceJs x = true)
    (hshape : emailShape core = true)
    (hn : truthy sub.nombre = true) (hm : truthy sub.mensaje = true) :
    ∃ t m, contactHandler env sub = .send t m ∧ m.replyTo = e := by
  obtain ⟨lp, dom, hteq, hlpne, hlpall, hdomne, hdomall⟩ :=
    emailShape_parts core hshape
  obtain ⟨c, lp', hlp⟩ := List.exists_cons_of_ne_nil hlpne
  rcases List.eq_nil_or_concat dom with rfl | ⟨init, d, hdom⟩
  · exact absurd rfl hdomne
  rw [List.concat_eq_append] at hdom
  have hc : isSpaceJs c = false := by
    rw [hlp] at hlpall
    simp only [List.all_cons, Bool.and_eq_true] at hlpall
    have := hlpall.1
    simp [emailChar] at this
    exact this.1
  have hd : isSpaceJs d = false := by
    have hmem : d ∈ dom := by rw [hdom]; simp
    have := (List.all_eq_true.mp hdomall) d hmem
    simp [emailChar] at this
    exact this.1
  have hcore : core = c :: (lp' ++ '@' :: dom) := by
    rw [hteq, hlp]
    rfl
  have hform : c :: (lp' ++ '@' :: dom) = ((c :: lp') ++ '@' :: init) ++ [d] := by
    rw [hdom]
    simp
  have htrim : jsTrim e = core := by
    rw [hsplit, hcore]
    exact jsTrim_wrap ws1 ws2 c d _ _ hform hc hd hw1 hw2
  have hisem : isEmail e = true := by
    unfold isEmail
    rw [htrim]
    exact hshape
  have hte : truthy sub.email = true := by
    rw [hemail, hsplit, hcore]
    simp [truthy]
  have hisem' : isEmail (sub.email.getD []) = true := by
    rw [hemail]
    exact hisem
  have hhandler : contactHandler env sub =
      .send (mkTransport env) (mkMail env sub) := by
    unfold contactHandler
    simp [hn, hm, hte, hisem']
  refine ⟨mkTransport env, mkMail env sub, hhandler, ?_⟩
  simp [mkMail, hemail]

/-- A submission whose email is " a@b.c " (blanks on both sides). -/
def subSpacedEmail : Submission :=
  { nombre := some (str "Ana"), email := some (str " a@b.c "), telefono := none
    mensaje := some (str "Hola"), asunto := none }

theorem email_trimmed_validation_untrimmed_replyto_witness :
    (subSpacedEmail.email = some (str " a@b.c ") ∧
     str " a@b.c " = [' '] ++ str "a@b.c" ++ [' '] ∧
     (∀ x ∈ [' '], isSpaceJs x = true) ∧
     emailShape (str "a@b.c") = true ∧
     truthy subSpacedEmail.nombre = true ∧ truthy subSpacedEmail.mensaje = true) ∧
    (∃ t m, contactHandler envA subSpacedEmail = .send t m ∧
      m.replyTo = str " a@b.c ") :=
  ⟨⟨rfl, by decide, by decide, by decide, by decide, by decide⟩,
   email_trimmed_validation_untrimmed_replyto envA subSpacedEmail
    (str " a@b.c ") (str "a@b.c") [' '] [' '] rfl (by decide)
    (by decide) (by decide) (by decide) (by decide) (by decide)⟩
